import Mathlib

/-!
Verification of the core of the `github-projects` MCP server (devassistantai/mcp-servers):
credential classification (`src/github-projects/src/utils/token-utils.ts`), response
normalization (`adaptResponse` / `convertToTextItem` in the GraphQL server entry point),
field-value resolution (`createTask`), and the batch / status-management orchestration
(`bulkAddIssues`, `manageTaskStatus`).

The embedding is shallow: each TypeScript function is translated into an executable Lean
definition over explicit data models.  Remote GraphQL/REST calls (`executeGraphQL`) are
modelled as oracles (`Except`-valued fields of a record), a thrown JS exception is the
`.error` case, and the list of oracle invocations an execution performs is returned
alongside the result so that "no remote call was issued" is a provable statement.
-/

/-! ## Credential classification (token-utils.ts) -/

/-- Token capability classes, from `enum GitHubTokenType` in
`src/github-projects/src/utils/token-utils.ts`. -/
inductive GitHubTokenType where
  | classic
  | fineGrained
  | unknown
deriving DecidableEq, Repr

/-- `String.prototype.startsWith` over character lists (second argument is the sought
leading segment). -/
def charsStartWith : List Char → List Char → Bool
  | _, [] => true
  | [], _ :: _ => false
  | c :: cs, p :: ps => c = p && charsStartWith cs ps

/-- `s.startsWith(p)` in JS. -/
def strStartsWith (s p : String) : Bool := charsStartWith s.data p.data

/-- `detectTokenType` from token-utils.ts.  `none` models an undefined token and the
empty string is falsy in JS (`if (!token)`), so both map to `unknown`. -/
def detectTokenType (token : Option String) : GitHubTokenType :=
  match token with
  | none => .unknown
  | some t =>
    if t = "" then .unknown
    else if strStartsWith t "ghp_" then .classic
    else if strStartsWith t "github_pat_" then .fineGrained
    else .unknown

/-- `isTokenSuitableForGraphQL` from token-utils.ts: `tokenType === GitHubTokenType.CLASSIC`. -/
def isTokenSuitableForGraphQL (token : Option String) : Bool :=
  match token with
  | none => false
  | some t =>
    if t = "" then false
    else
      match detectTokenType (some t) with
      | .classic => true
      | _ => false

/-! ## A model of the JavaScript values flowing through the response normalizer

Numbers are modelled as integers: every number the normalizer sees in this program is an
id, an issue number or a count.  `NaN` is not modelled (it never reaches `adaptResponse`).
-/

/-- JavaScript values (JSON values plus `undefined`). -/
inductive JSValue where
  | vNull
  | vUndefined
  | vBool (b : Bool)
  | vNum (n : Int)
  | vStr (s : String)
  | vArr (elems : List JSValue)
  | vObj (fields : List (String × JSValue))

/-- Property lookup `obj[k]`: `none` models an absent key (`undefined`). -/
def jsLookup (kvs : List (String × JSValue)) (k : String) : Option JSValue :=
  (kvs.find? (fun kv => kv.1 == k)).map (fun kv => kv.2)

/-- JS truthiness.  (`NaN` is not modelled, see above.) -/
def truthy : JSValue → Bool
  | .vNull => false
  | .vUndefined => false
  | .vBool b => b
  | .vNum n => n != 0
  | .vStr s => s != ""
  | .vArr _ => true
  | .vObj _ => true

/-- `v || dflt` applied to a property lookup result (absent keys are falsy). -/
def jsOr (v : Option JSValue) (dflt : JSValue) : JSValue :=
  match v with
  | some x => if truthy x then x else dflt
  | none => dflt

mutual

/-- String coercion as performed by a template literal placeholder. -/
def jsToDisplayString : JSValue → String
  | .vNull => "null"
  | .vUndefined => "undefined"
  | .vBool b => if b then "true" else "false"
  | .vNum n => toString n
  | .vStr s => s
  | .vArr elems => jsArrayJoin elems
  | .vObj _ => "[object Object]"

/-- `Array.prototype.toString`: elements joined by commas, `null`/`undefined` as empty. -/
def jsArrayJoin : List JSValue → String
  | [] => ""
  | [x] =>
    (match x with
     | .vNull => ""
     | .vUndefined => ""
     | v => jsToDisplayString v)
  | x :: xs =>
    (match x with
     | .vNull => ""
     | .vUndefined => ""
     | v => jsToDisplayString v) ++ "," ++ jsArrayJoin xs

end

/-- JSON string escaping for the characters this model produces.  Control characters other
than the listed ones would be emitted as `\uXXXX` by JS; they are not modelled. -/
def jsonEscapeChar (c : Char) : String :=
  if c = '"' then "\\\""
  else if c = '\\' then "\\\\"
  else if c = '\n' then "\\n"
  else if c = '\r' then "\\r"
  else if c = '\t' then "\\t"
  else String.singleton c

/-- A JSON string literal. -/
def jsonQuote (s : String) : String :=
  "\"" ++ String.join (s.data.map jsonEscapeChar) ++ "\""

mutual

/-- `JSON.stringify`.  The source calls `JSON.stringify(item, null, 2)`; the indentation
whitespace of the pretty-printer is not reproduced (no property proved here depends on
the serialized text).  `undefined` object values are omitted, `undefined` array elements
serialize as `null`, exactly as in JS. -/
def jsonStringify : JSValue → String
  | .vNull => "null"
  | .vUndefined => "null"
  | .vBool b => if b then "true" else "false"
  | .vNum n => toString n
  | .vStr s => jsonQuote s
  | .vArr elems => "[" ++ jsonStringifyElems elems ++ "]"
  | .vObj kvs => "\x7b" ++ jsonStringifyFields kvs ++ "\x7d"

/-- Array elements, comma separated. -/
def jsonStringifyElems : List JSValue → String
  | [] => ""
  | [x] => jsonStringify x
  | x :: xs => jsonStringify x ++ "," ++ jsonStringifyElems xs

/-- Object fields, comma separated, skipping `undefined` values. -/
def jsonStringifyFields : List (String × JSValue) → String
  | [] => ""
  | (_, .vUndefined) :: rest => jsonStringifyFields rest
  | (k, v) :: rest =>
    let tail := jsonStringifyFields rest
    jsonQuote k ++ ":" ++ jsonStringify v ++ (if tail = "" then "" else "," ++ tail)

end

/-- A `{ type: 'text', text: s }` result item. -/
def textItem (s : String) : JSValue :=
  .vObj [("type", .vStr "text"), ("text", .vStr s)]

/-- `convertToTextItem` from the GraphQL server entry point (src/unnamed/part_000,
lines 426-465).  Branch order follows the source: null/undefined, already-formatted
text item, string, object with a `title` key, other object (via `JSON.stringify`),
remaining primitives (via `String(item)`).  Arrays are objects in JS without `type`
or `title` keys, so they take the `JSON.stringify` branch. -/
def convertToTextItem (item : JSValue) : JSValue :=
  match item with
  | .vNull => textItem "No data"
  | .vUndefined => textItem "No data"
  | .vStr s => textItem s
  | .vObj kvs =>
    if (match jsLookup kvs "type" with
        | some (.vStr "text") => true
        | _ => false) && (jsLookup kvs "text").isSome then
      .vObj kvs
    else if (jsLookup kvs "title").isSome then
      let title := jsOr (jsLookup kvs "title") (.vStr "Untitled")
      let description := jsOr (jsLookup kvs "description") (jsOr (jsLookup kvs "body") (.vStr ""))
      let id := jsOr (jsLookup kvs "id") (jsOr (jsLookup kvs "number") (.vStr ""))
      let status := jsOr (jsLookup kvs "state")
        (.vStr (if truthy (jsOr (jsLookup kvs "closed") .vNull) then "closed" else "open"))
      let formatted := jsToDisplayString title ++ " (ID: " ++ jsToDisplayString id ++
        ", Status: " ++ jsToDisplayString status ++ ")" ++
        (if truthy description then "\n\n" ++ jsToDisplayString description else "")
      textItem formatted
    else
      textItem (jsonStringify (.vObj kvs))
  | .vArr elems => textItem (jsonStringify (.vArr elems))
  | .vBool b => textItem (if b then "true" else "false")
  | .vNum n => textItem (toString n)

/-- The sentinel "no data" item (`'Sem dados disponíveis'`). -/
def sentinelNoData : JSValue := textItem "Sem dados disponíveis"

/-- The `content` array computed by `adaptResponse` for an object input without an
`error` key: a present `content` array is mapped element-wise through
`convertToTextItem`; otherwise an object with keys beyond `error`/`details` becomes a
single converted entry, and anything else is empty. -/
def adaptContent (kvs : List (String × JSValue)) : List JSValue :=
  match jsLookup kvs "content" with
  | some (.vArr items) => items.map convertToTextItem
  | _ =>
    let keys := (kvs.map (fun kv => kv.1)).filter (fun k => k != "error" && k != "details")
    if keys.isEmpty then [] else [convertToTextItem (.vObj kvs)]

/-- `adaptResponse` from the GraphQL server entry point (src/unnamed/part_000, lines
286-331).  An object carrying an `error` key is returned as
`{ error: result.error, details: result.details || result }`; otherwise a `content`
array is built and `{ content: content.length ? content : [sentinel] }` is returned. -/
def adaptResponse (result : JSValue) : JSValue :=
  match result with
  | .vObj kvs =>
    if (jsLookup kvs "error").isSome then
      .vObj [("error", (jsLookup kvs "error").getD .vUndefined),
             ("details", jsOr (jsLookup kvs "details") (.vObj kvs))]
    else
      .vObj [("content", .vArr
        (if (adaptContent kvs).isEmpty then [sentinelNoData] else adaptContent kvs))]
  | .vArr elems =>
    let content := elems.map convertToTextItem
    .vObj [("content", .vArr (if content.isEmpty then [sentinelNoData] else content))]
  | .vNull => .vObj [("content", .vArr [sentinelNoData])]
  | .vUndefined => .vObj [("content", .vArr [sentinelNoData])]
  | prim => .vObj [("content", .vArr [convertToTextItem prim])]

/-- The `content` list of a normalized envelope, `none` when the value is not an object
or has no `content` key. -/
def contentOf (v : JSValue) : Option JSValue :=
  match v with
  | .vObj kvs => jsLookup kvs "content"
  | _ => none

/-- Whether a value is an object carrying an `error` key (the guard of the first branch
of `adaptResponse`). -/
def isErrorObject (v : JSValue) : Bool :=
  match v with
  | .vObj kvs => (jsLookup kvs "error").isSome
  | _ => false

/-! ## The DATE format check of `createTask`

The source tests `/^\d{4}-\d{2}-\d{2}(T\d{2}:\d{2}:\d{2}(\.\d{3})?Z)?$/.test(field.value)`
(src/unnamed/part_008, line 338).  The regex is embedded as a deterministic matcher over
the character list: fixed-width digit runs separated by literal characters, with the
anchors expressed by requiring the whole list to be consumed.
-/

/-- Consume exactly `n` decimal digits (`\d{n}`), returning the rest of the input. -/
def takeDigits : Nat → List Char → Option (List Char)
  | 0, cs => some cs
  | _ + 1, [] => none
  | n + 1, c :: cs => if c.isDigit then takeDigits n cs else none

/-- Consume one expected literal character. -/
def expectChar (c : Char) : List Char → Option (List Char)
  | [] => none
  | c2 :: cs => if c2 = c then some cs else none

/-- The `(\.\d{3})?Z$` tail after the seconds: a lone `Z`, or `.` then three digits
then `Z`, with nothing after. -/
def matchFracZ : List Char → Bool
  | [] => false
  | c :: cs2 =>
    if c = 'Z' then cs2.isEmpty
    else if c = '.' then
      (match takeDigits 3 cs2 with
       | none => false
       | some rest => rest == ['Z'])
    else false

/-- The optional time part `(T\d{2}:\d{2}:\d{2}(\.\d{3})?Z)?$` after the date part. -/
def matchTimeSuffix : List Char → Bool
  | [] => true
  | c :: cs =>
    if c = 'T' then
      (match ((((takeDigits 2 cs).bind (expectChar ':')).bind (takeDigits 2)).bind
          (expectChar ':')).bind (takeDigits 2) with
       | none => false
       | some rest => matchFracZ rest)
    else false

/-- The whole regex `^\d{4}-\d{2}-\d{2}(T\d{2}:\d{2}:\d{2}(\.\d{3})?Z)?$`. -/
def isValidDateFormat (s : String) : Bool :=
  match ((((takeDigits 4 s.data).bind (expectChar '-')).bind (takeDigits 2)).bind
      (expectChar '-')).bind (takeDigits 2) with
  | none => false
  | some rest => matchTimeSuffix rest

/-- All characters are decimal digits. -/
def AllDigits (l : List Char) : Prop := ∀ c ∈ l, c.isDigit = true

/-- Specification-side reading of the optional timestamp suffix
`Thh:mm:ss(.sss)?Z` (or nothing), as the spec states it. -/
def TimeSuffixSpec (cs : List Char) : Prop :=
  cs = [] ∨ ∃ h mi se fr, cs = 'T' :: (h ++ ':' :: (mi ++ ':' :: (se ++ (fr ++ ['Z'])))) ∧
    h.length = 2 ∧ AllDigits h ∧ mi.length = 2 ∧ AllDigits mi ∧ se.length = 2 ∧ AllDigits se ∧
    (fr = [] ∨ ∃ f, fr = '.' :: f ∧ f.length = 3 ∧ AllDigits f)

/-- Specification-side reading of the accepted date strings: `YYYY-MM-DD`, optionally
followed by the full timestamp `Thh:mm:ss(.sss)?Z`. -/
def DateFormatSpec (s : String) : Prop :=
  ∃ y mo d rest, s.data = y ++ '-' :: (mo ++ '-' :: (d ++ rest)) ∧
    y.length = 4 ∧ AllDigits y ∧ mo.length = 2 ∧ AllDigits mo ∧ d.length = 2 ∧ AllDigits d ∧
    TimeSuffixSpec rest

/-! ## JavaScript `Number(string)` conversion

The NUMBER branch of `createTask` runs `const num = Number(field.value)` and rejects the
value iff `isNaN(num)`.  `Number` on a string trims `StrWhiteSpaceChar`s, yields `0` for
an empty remainder, and otherwise parses a `StrNumericLiteral` (decimal with optional
sign, exponent and `Infinity`, or an unsigned `0x`/`0o`/`0b` literal).  `none` models
`NaN`.  Finite values are kept as exact rationals: rounding to IEEE-754 binary64 is not
modelled, and no property proved here depends on it (only `0` vs `NaN` matter).
-/

/-- A JS number that is not `NaN`. -/
inductive JsNum where
  | finite (q : ℚ)
  | posInf
  | negInf
deriving DecidableEq, Repr

/-- The `StrWhiteSpaceChar` set (ECMA-262 WhiteSpace ∪ LineTerminator). -/
def jsStrWhiteSpaceChars : List Char :=
  [' ', '\t', '\n', '\u000B', '\u000C', '\r',
   '\u00A0', '\u1680', '\u2000', '\u2001', '\u2002', '\u2003', '\u2004', '\u2005',
   '\u2006', '\u2007', '\u2008', '\u2009', '\u200A', '\u2028', '\u2029', '\u202F',
   '\u205F', '\u3000', '\uFEFF']

/-- Membership in the JS string-whitespace set. -/
def isJsStrWhiteSpace (c : Char) : Bool := jsStrWhiteSpaceChars.contains c

/-- Trim leading and trailing JS whitespace. -/
def trimJsWhiteSpace (l : List Char) : List Char :=
  ((l.dropWhile isJsStrWhiteSpace).reverse.dropWhile isJsStrWhiteSpace).reverse

/-- Decimal digit run to a natural number. -/
def digitsToNat (ds : List Char) : Nat :=
  ds.foldl (fun acc c => acc * 10 + (c.toNat - '0'.toNat)) 0

/-- Hexadecimal digit test. -/
def isHexDigit (c : Char) : Bool :=
  c.isDigit || ('a' ≤ c && c ≤ 'f') || ('A' ≤ c && c ≤ 'F')

/-- Hexadecimal digit value. -/
def hexVal (c : Char) : Nat :=
  if c.isDigit then c.toNat - '0'.toNat
  else if 'a' ≤ c && c ≤ 'f' then c.toNat - 'a'.toNat + 10
  else c.toNat - 'A'.toNat + 10

/-- A non-empty digit run in the given predicate/value interpretation, as a natural. -/
def parseRadixRun (pred : Char → Bool) (val : Char → Nat) (radix : Nat)
    (ds : List Char) : Option ℚ :=
  if !ds.isEmpty && ds.all pred then
    some ((ds.foldl (fun acc c => acc * radix + val c) 0 : Nat) : ℚ)
  else none

/-- A non-empty all-decimal run, required to span the whole input. -/
def parseExpDigits (ds : List Char) : Option Nat :=
  if !ds.isEmpty && ds.all Char.isDigit then some (digitsToNat ds) else none

/-- The optionally signed exponent digits after `e`/`E`. -/
def parseSignedExpDigits : List Char → Option Int
  | '+' :: ds => (parseExpDigits ds).map (fun n => (n : Int))
  | '-' :: ds => (parseExpDigits ds).map (fun n => -(n : Int))
  | ds => (parseExpDigits ds).map (fun n => (n : Int))

/-- The exponent part: either nothing, or `e`/`E` followed by signed digits. -/
def parseExponent : List Char → Option Int
  | [] => some 0
  | 'e' :: r => parseSignedExpDigits r
  | 'E' :: r => parseSignedExpDigits r
  | _ => some 0 |>.bind (fun _ => none)

/-- `10^e` over the rationals. -/
def tenPow (e : Int) : ℚ := (10 : ℚ) ^ e

/-- `StrUnsignedDecimalLiteral` without the `Infinity` case:
`digits [. digits] [exp]` or `. digits [exp]`. -/
def parseUnsignedDecimal (cs : List Char) : Option ℚ :=
  let ip := cs.takeWhile Char.isDigit
  let r1 := cs.dropWhile Char.isDigit
  match r1 with
  | '.' :: r2 =>
    let fp := r2.takeWhile Char.isDigit
    let r3 := r2.dropWhile Char.isDigit
    if ip.isEmpty && fp.isEmpty then none
    else (parseExponent r3).map (fun e =>
      ((digitsToNat ip : ℚ) + (digitsToNat fp : ℚ) / ((10 : ℚ) ^ fp.length)) * tenPow e)
  | _ =>
    if ip.isEmpty then none
    else (parseExponent r1).map (fun e => (digitsToNat ip : ℚ) * tenPow e)

/-- An optionally signed decimal literal or `Infinity`. -/
def parseSignedPart (cs : List Char) (neg : Bool) : Option JsNum :=
  if cs = "Infinity".data then some (if neg then .negInf else .posInf)
  else (parseUnsignedDecimal cs).map (fun q => .finite (if neg then -q else q))

/-- `StrNumericLiteral`: the sign is only legal on the decimal form, so `0x…`/`0o…`/`0b…`
are matched first (they never carry a sign). -/
def parseStrNumericLiteral (cs : List Char) : Option JsNum :=
  match cs with
  | '0' :: 'x' :: rest => parseRadixRun isHexDigit hexVal 16 rest |>.map .finite
  | '0' :: 'X' :: rest => parseRadixRun isHexDigit hexVal 16 rest |>.map .finite
  | '0' :: 'o' :: rest =>
    parseRadixRun (fun c => '0' ≤ c && c ≤ '7') (fun c => c.toNat - '0'.toNat) 8 rest |>.map .finite
  | '0' :: 'O' :: rest =>
    parseRadixRun (fun c => '0' ≤ c && c ≤ '7') (fun c => c.toNat - '0'.toNat) 8 rest |>.map .finite
  | '0' :: 'b' :: rest =>
    parseRadixRun (fun c => c = '0' || c = '1') (fun c => c.toNat - '0'.toNat) 2 rest |>.map .finite
  | '0' :: 'B' :: rest =>
    parseRadixRun (fun c => c = '0' || c = '1') (fun c => c.toNat - '0'.toNat) 2 rest |>.map .finite
  | '+' :: rest => parseSignedPart rest false
  | '-' :: rest => parseSignedPart rest true
  | _ => parseSignedPart cs false

/-- `Number(s)` for a string `s`: trim, empty ⇒ `0`, otherwise the numeric literal;
`none` is `NaN`. -/
def jsToNumber (s : String) : Option JsNum :=
  let t := trimJsWhiteSpace s.data
  if t.isEmpty then some (.finite 0) else parseStrNumericLiteral t

/-! ## Field-value resolution (`createTask`, src/unnamed/part_008, lines 296-419)

The per-custom-field step first re-fetches the project's field list and looks the field
up by id, then dispatches on `fieldInfo.dataType` to build the typed mutation payload.
The remote `updateProjectV2ItemFieldValue` call that follows a successful resolution is
not part of resolution and is modelled in the batch orchestration instead.
-/

/-- One option of a single-select field (`options` entries of the field query). -/
structure SelectOption where
  id : String
  name : String
  color : Option String
deriving DecidableEq, Repr

/-- One iteration of an iteration field (`configuration.iterations` entries). -/
structure IterationInfo where
  id : String
  title : String
deriving DecidableEq, Repr

/-- A field definition as returned by `GET_FIELD_INFO_QUERY`: `options` is present only
on single-select fields, `iterations` only on iteration fields. -/
structure FieldInfo where
  id : String
  name : String
  dataType : String
  options : Option (List SelectOption)
  iterations : Option (List IterationInfo)
deriving DecidableEq, Repr

/-- The typed payload fragment (`formattedValue`) accepted by the field mutation. -/
inductive FormattedValue where
  | text (t : String)
  | number (n : JsNum)
  | date (d : String)
  | singleSelectOptionId (id : String)
  | iterationId (id : String)
deriving DecidableEq, Repr

/-- A structured resolution failure: the error message plus the optional
`availableOptions` / `availableIterations` lists attached to the pushed result record. -/
structure ResolutionError where
  message : String
  availableOptions : Option (List String)
  availableIterations : Option (List String)
deriving DecidableEq, Repr

/-- The `switch (fieldInfo.dataType)` of `createTask` (part_008 lines 319-392). -/
def resolveFieldValue (fieldInfo : FieldInfo) (value : String) :
    Except ResolutionError FormattedValue :=
  match fieldInfo.dataType with
  | "TEXT" => .ok (.text value)
  | "NUMBER" =>
    (match jsToNumber value with
     | none => .error ⟨"Valor \"" ++ value ++ "\" não é um número válido para o campo \"" ++
         fieldInfo.name ++ "\".", none, none⟩
     | some n => .ok (.number n))
  | "DATE" =>
    if isValidDateFormat value then .ok (.date value)
    else .error ⟨"Valor \"" ++ value ++
      "\" não é uma data válida. Use o formato ISO 8601 (YYYY-MM-DD).", none, none⟩
  | "SINGLE_SELECT" =>
    (match fieldInfo.options.bind (fun opts => opts.find? (fun o => o.name == value)) with
     | some opt => .ok (.singleSelectOptionId opt.id)
     | none => .error ⟨"Opção \"" ++ value ++ "\" não encontrada para o campo de seleção \"" ++
         fieldInfo.name ++ "\".",
         some ((fieldInfo.options.map (fun opts => opts.map (fun o => o.name))).getD []), none⟩)
  | "ITERATION" =>
    (match fieldInfo.iterations.bind (fun its => its.find? (fun it => it.title == value)) with
     | some it => .ok (.iterationId it.id)
     | none => .error ⟨"Iteração \"" ++ value ++ "\" não encontrada para o campo \"" ++
         fieldInfo.name ++ "\".", none,
         some ((fieldInfo.iterations.map (fun its => its.map (fun it => it.title))).getD [])⟩)
  | other => .error ⟨"Tipo de campo \"" ++ other ++ "\" não suportado.", none, none⟩

/-- The lookup-then-resolve step for one entry of `customFields`: find the field by id in
the fetched field list (part_008 lines 303-314) and resolve the value against it.  A
missing field id yields the error record pushed at lines 307-313, which carries no list
of available identifiers. -/
def processCustomField (fields : List FieldInfo) (fieldId : String) (value : String) :
    Except ResolutionError FormattedValue :=
  match fields.find? (fun f => f.id == fieldId) with
  | none => .error ⟨"Campo com ID " ++ fieldId ++ " não encontrado no projeto.", none, none⟩
  | some fi => resolveFieldValue fi value

/-! ## Batch orchestration: `bulkAddIssues` (src/unnamed/part_009, lines 94-295)

`executeGraphQL` is an oracle: `.error` models a thrown exception, `.ok` the parsed
data.  Optional chaining misses (`result.x?.y` being `undefined`) are modelled as
`Option` results.  Every oracle invocation is recorded in the returned call trace.
The `statusFieldId`/`statusValue` parameters are `Option`s; the zod schema requires
ids and values to be non-empty strings, so JS truthiness of a present value holds.
-/

/-- The issue data returned by `GET_ISSUE_ID_QUERY`. -/
structure IssueInfo where
  id : String
  number : Int
  title : String
  url : String
deriving DecidableEq, Repr

/-- One option of a single-select status field (id and name). -/
structure StatusOption where
  id : String
  name : String
deriving DecidableEq, Repr

/-- `node?.field` of the bulk `GET_STATUS_FIELD_INFO_QUERY`: `options` is `none` when the
resolved field is not a single-select field. -/
structure StatusFieldInfo where
  id : String
  name : String
  options : Option (List StatusOption)
deriving DecidableEq, Repr

/-- One GraphQL request issued by `bulkAddIssues`. -/
inductive GqlCall where
  | getStatusFieldInfo
  | getIssueId (n : Int)
  | addProjectItem (contentId : String)
  | updateFieldValue (itemId : String)
deriving DecidableEq, Repr

/-- The remote service as seen by `bulkAddIssues`: one entry per query/mutation. -/
structure BulkRemote where
  statusFieldInfo : Except String (Option StatusFieldInfo)
  issueLookup : Int → Except String (Option IssueInfo)
  addItem : String → Except String (Option String)
  updateField : String → Except String Bool

/-- One element of the `results` array: the per-issue outcome record. -/
structure ItemOutcome where
  issueNumber : Int
  success : Bool
  error : Option String
  itemId : Option String
  issue : Option IssueInfo
  statusUpdated : Option Bool
deriving DecidableEq, Repr

/-- A failure record as pushed by the loop (`{ issueNumber, success: false, error }`). -/
def failureOutcome (n : Int) (msg : String) : ItemOutcome :=
  ⟨n, false, some msg, none, none, none⟩

/-- One iteration of the `for (const issueNumber of issueNumbers)` loop (part_009 lines
183-265).  The inner `try` catches any remote throw and pushes a failure record; the
status update has its own `try`/`catch` that merely logs and continues, leaving
`statusUpdated` at `false`. -/
def processIssue (remote : BulkRemote) (owner repo : String)
    (statusFieldId statusOptionId : Option String) (n : Int) :
    ItemOutcome × List GqlCall :=
  match remote.issueLookup n with
  | .error e => (failureOutcome n e, [.getIssueId n])
  | .ok none =>
    (failureOutcome n ("Issue #" ++ toString n ++ " não encontrada no repositório " ++
      owner ++ "/" ++ repo ++ "."), [.getIssueId n])
  | .ok (some issue) =>
    match remote.addItem issue.id with
    | .error e => (failureOutcome n e, [.getIssueId n, .addProjectItem issue.id])
    | .ok none =>
      (failureOutcome n "Falha ao adicionar issue ao projeto.",
       [.getIssueId n, .addProjectItem issue.id])
    | .ok (some itemId) =>
      match statusFieldId, statusOptionId with
      | some _, some _ =>
        (match remote.updateField itemId with
         | .error _ =>
           (⟨n, true, none, some itemId, some issue, some false⟩,
            [.getIssueId n, .addProjectItem issue.id, .updateFieldValue itemId])
         | .ok b =>
           (⟨n, true, none, some itemId, some issue, some b⟩,
            [.getIssueId n, .addProjectItem issue.id, .updateFieldValue itemId]))
      | _, _ =>
        (⟨n, true, none, some itemId, some issue, some false⟩,
         [.getIssueId n, .addProjectItem issue.id])

/-- The whole loop: ordered outcomes, `successCount`, and the concatenated call trace. -/
def runBulkLoop (remote : BulkRemote) (owner repo : String)
    (statusFieldId statusOptionId : Option String) :
    List Int → List ItemOutcome × Nat × List GqlCall
  | [] => ([], 0, [])
  | n :: rest =>
    let step := processIssue remote owner repo statusFieldId statusOptionId n
    let tail := runBulkLoop remote owner repo statusFieldId statusOptionId rest
    (step.1 :: tail.1, (if step.1.success then 1 else 0) + tail.2.1, step.2 ++ tail.2.2)

/-- An `isError` MCP response: the message and, when attached, the `availableOptions`
list (only option-name lookup failures attach one). -/
structure Refusal where
  message : String
  availableOptions : Option (List String)
deriving DecidableEq, Repr

/-- The observable result of `bulkAddIssues`: an early `isError` response, the outer
`catch` response, or the final aggregate response. -/
inductive BulkResult where
  | refusal (r : Refusal)
  | fatal (message : String)
  | completed (successCount : Nat) (totalIssues : Nat) (results : List ItemOutcome)
deriving DecidableEq, Repr

/-- Parameters of `bulkAddIssues` (`BulkAddIssuesSchema`). -/
structure BulkParams where
  projectId : String
  owner : String
  repo : String
  issueNumbers : List Int
  statusFieldId : Option String
  statusValue : Option String
deriving DecidableEq, Repr

/-- The token-gate refusal message shared by every GraphQL tool. -/
def tokenRefusalMsg : String :=
  "Token do GitHub não é adequado para API GraphQL. Utilize um token clássico (ghp_)."

/-- `bulkAddIssues` (part_009 lines 94-295): token gate, parameter validation, optional
status-option resolution, then the best-effort loop.  A missing token throws, which the
outer `catch` turns into the generic failure response. -/
def bulkAddIssues (token : Option String) (remote : BulkRemote) (p : BulkParams) :
    BulkResult × List GqlCall :=
  match token with
  | none => (.fatal "Falha ao adicionar issues em massa: Token do GitHub não configurado.", [])
  | some t =>
    if !(isTokenSuitableForGraphQL (some t)) then
      (.refusal ⟨tokenRefusalMsg, none⟩, [])
    else if p.statusFieldId.isSome && p.statusValue.isNone then
      (.refusal ⟨"É necessário fornecer um valor de status quando o ID do campo de status é fornecido.",
        none⟩, [])
    else
      match p.statusFieldId, p.statusValue with
      | some fid, some v =>
        (match remote.statusFieldInfo with
         | .error e => (.fatal ("Falha ao adicionar issues em massa: " ++ e), [.getStatusFieldInfo])
         | .ok none =>
           (.refusal ⟨"Campo de status com ID " ++ fid ++ " não encontrado no projeto.", none⟩,
            [.getStatusFieldInfo])
         | .ok (some sf) =>
           match sf.options with
           | none =>
             (.refusal ⟨"O campo com ID " ++ fid ++ " não é um campo de seleção única.", none⟩,
              [.getStatusFieldInfo])
           | some opts =>
             match opts.find? (fun o => o.name == v) with
             | none =>
               (.refusal ⟨"Opção \"" ++ v ++ "\" não encontrada para o campo de status \"" ++
                 sf.name ++ "\".", some (opts.map (fun o => o.name))⟩, [.getStatusFieldInfo])
             | some opt =>
               let loop := runBulkLoop remote p.owner p.repo (some fid) (some opt.id) p.issueNumbers
               (.completed loop.2.1 p.issueNumbers.length loop.1, .getStatusFieldInfo :: loop.2.2))
      | _, _ =>
        let loop := runBulkLoop remote p.owner p.repo none none p.issueNumbers
        (.completed loop.2.1 p.issueNumbers.length loop.1, loop.2.2)

/-! ## `manageTaskStatus` (src/github-projects/src/tools/manage-task-status.ts) -/

/-- A field node of `GET_STATUS_FIELD_INFO_QUERY` in manage-task-status.ts. -/
structure MtsStatusField where
  id : String
  name : String
  dataType : String
  options : Option (List StatusOption)
deriving DecidableEq, Repr

/-- The `__typename` of a project item's content. -/
inductive ContentType where
  | issue
  | pullRequest
  | draftIssue
deriving DecidableEq, Repr

/-- The content node returned by `GET_ITEM_DETAILS_QUERY`. -/
structure ItemContent where
  typename : ContentType
  id : String
deriving DecidableEq, Repr

/-- One GraphQL request issued by `manageTaskStatus`. -/
inductive MtsCall where
  | getStatusFieldInfo
  | updateTaskStatus
  | getItemDetails
  | addComment
deriving DecidableEq, Repr

/-- The remote service as seen by `manageTaskStatus`. -/
structure MtsRemote where
  statusFields : Except String (List MtsStatusField)
  updateStatus : Except String Bool
  itemDetails : Except String (Option ItemContent)
  addComment : Except String Unit

/-- The `commentResult` recorded on the success response: `added` when the comment
mutation succeeded, `failedAfterUpdate` when it threw (caught locally, lines 258-262),
`warning` for the draft-item and missing-details cases. -/
inductive CommentOutcome where
  | added
  | failedAfterUpdate (message : String)
  | warning (message : String)
deriving DecidableEq, Repr

/-- The observable result of `manageTaskStatus`.  The `updated` case is the success
response; fields of the response derived from the updated item's `fieldValues` and
`content` (display data only) are not modelled — no claim mentions them. -/
inductive MtsResult where
  | refusal (r : Refusal)
  | fatal (message : String)
  | updated (newStatus : String) (statusOptionId : String) (comment : Option CommentOutcome)
deriving DecidableEq, Repr

/-- Parameters of `manageTaskStatus` (`ManageTaskStatusSchema`, with the destructuring
defaults `addComment = false`, `commentBody = ''` applied). -/
structure MtsParams where
  projectId : String
  itemId : String
  statusFieldId : String
  newStatus : String
  addComment : Bool
  commentBody : String
deriving DecidableEq, Repr

/-- `manageTaskStatus` (manage-task-status.ts lines 147-346): token gate, field lookup by
id over the fetched field list, option lookup by name, status update, then the optional
best-effort comment.  A throw of the comment mutation is caught locally; a throw of the
details query or the update mutation reaches the outer `catch`. -/
def manageTaskStatus (token : Option String) (remote : MtsRemote) (p : MtsParams) :
    MtsResult × List MtsCall :=
  match token with
  | none => (.fatal "Falha ao gerenciar status da tarefa: Token do GitHub não configurado.", [])
  | some t =>
    if !(isTokenSuitableForGraphQL (some t)) then
      (.refusal ⟨tokenRefusalMsg, none⟩, [])
    else
      match remote.statusFields with
      | .error e => (.fatal ("Falha ao gerenciar status da tarefa: " ++ e), [.getStatusFieldInfo])
      | .ok fields =>
        match fields.find? (fun f => f.id == p.statusFieldId) with
        | none =>
          (.refusal ⟨"Campo de status com ID " ++ p.statusFieldId ++ " não encontrado no projeto.",
            none⟩, [.getStatusFieldInfo])
        | some sf =>
          match sf.options with
          | none =>
            (.refusal ⟨"O campo " ++ sf.name ++ " não é um campo de seleção única válido para status.",
              none⟩, [.getStatusFieldInfo])
          | some opts =>
            if sf.dataType != "SINGLE_SELECT" then
              (.refusal ⟨"O campo " ++ sf.name ++ " não é um campo de seleção única válido para status.",
                none⟩, [.getStatusFieldInfo])
            else
              match opts.find? (fun o => o.name == p.newStatus) with
              | none =>
                (.refusal ⟨"Opção de status \"" ++ p.newStatus ++ "\" não encontrada no campo \"" ++
                  sf.name ++ "\".", some (opts.map (fun o => o.name))⟩, [.getStatusFieldInfo])
              | some opt =>
                match remote.updateStatus with
                | .error e =>
                  (.fatal ("Falha ao gerenciar status da tarefa: " ++ e),
                   [.getStatusFieldInfo, .updateTaskStatus])
                | .ok false =>
                  (.refusal ⟨"Falha ao atualizar status da tarefa no projeto.", none⟩,
                   [.getStatusFieldInfo, .updateTaskStatus])
                | .ok true =>
                  if p.addComment && p.commentBody != "" then
                    match remote.itemDetails with
                    | .error e =>
                      (.fatal ("Falha ao gerenciar status da tarefa: " ++ e),
                       [.getStatusFieldInfo, .updateTaskStatus, .getItemDetails])
                    | .ok none =>
                      (.updated p.newStatus opt.id
                        (some (.warning "Não foi possível obter detalhes do item para adicionar comentário.")),
                       [.getStatusFieldInfo, .updateTaskStatus, .getItemDetails])
                    | .ok (some c) =>
                      match c.typename with
                      | .draftIssue =>
                        (.updated p.newStatus opt.id
                          (some (.warning "Comentários só podem ser adicionados a Issues ou Pull Requests, não a rascunhos.")),
                         [.getStatusFieldInfo, .updateTaskStatus, .getItemDetails])
                      | _ =>
                        (match remote.addComment with
                         | .error _ =>
                           (.updated p.newStatus opt.id
                             (some (.failedAfterUpdate "Falha ao adicionar comentário, mas o status foi atualizado com sucesso.")),
                            [.getStatusFieldInfo, .updateTaskStatus, .getItemDetails, .addComment])
                         | .ok _ =>
                           (.updated p.newStatus opt.id (some .added),
                            [.getStatusFieldInfo, .updateTaskStatus, .getItemDetails, .addComment]))
                  else (.updated p.newStatus opt.id none, [.getStatusFieldInfo, .updateTaskStatus])

/-! ## Concrete fixtures used by the witnesses and counterexamples -/

/-- A single-select field with one option, for the resolver witnesses. -/
def ssFixture : FieldInfo :=
  ⟨"F1", "Status", "SINGLE_SELECT", some [⟨"opt1", "Todo", none⟩], none⟩

/-- A DATE field. -/
def dateFixture : FieldInfo := ⟨"F2", "Due", "DATE", none, none⟩

/-- A NUMBER field named "Points" (the spec's end-to-end scenario 1). -/
def numberFixture : FieldInfo := ⟨"F3", "Points", "NUMBER", none, none⟩

/-- An object carrying an `error` key, for the normalizer counterexample. -/
def errFixture : JSValue := .vObj [("error", .vStr "boom")]

/-- A bulk remote where issue #2 is missing and every other call succeeds. -/
def bulkFixtureRemote : BulkRemote where
  statusFieldInfo := .ok (some ⟨"SF", "Status", some [⟨"o1", "Todo"⟩]⟩)
  issueLookup := fun n =>
    if n == 2 then .ok none else .ok (some ⟨"I" ++ toString n, n, "Issue " ++ toString n, "u"⟩)
  addItem := fun cid => .ok (some ("item-" ++ cid))
  updateField := fun _ => .ok true

/-- A bulk remote whose status-update mutation always throws. -/
def bulkFixtureRemoteUpdateThrows : BulkRemote where
  statusFieldInfo := .ok (some ⟨"SF", "Status", some [⟨"o1", "Todo"⟩]⟩)
  issueLookup := fun n =>
    .ok (some ⟨"I" ++ toString n, n, "Issue " ++ toString n, "u"⟩)
  addItem := fun cid => .ok (some ("item-" ++ cid))
  updateField := fun _ => .error "forbidden"

/-- Bulk parameters over issues 1, 2, 3 without a status field. -/
def bulkFixtureParams : BulkParams :=
  ⟨"P", "acme", "widgets", [1, 2, 3], none, none⟩

/-- Bulk parameters over issue 7 with a status field and value. -/
def bulkFixtureParamsStatus : BulkParams :=
  ⟨"P", "acme", "widgets", [7], some "SF", some "Todo"⟩

/-- A manage-task-status remote with one single-select field `F1` and a comment mutation
that throws. -/
def mtsFixtureRemote : MtsRemote where
  statusFields := .ok [⟨"F1", "Status", "SINGLE_SELECT", some [⟨"o1", "Todo"⟩]⟩]
  updateStatus := .ok true
  itemDetails := .ok (some ⟨.issue, "C1"⟩)
  addComment := .error "comment failed"

/-- Parameters naming the existing field `F1` and requesting a comment. -/
def mtsFixtureParams : MtsParams :=
  ⟨"P", "I", "F1", "Todo", true, "done"⟩

/-- Parameters naming the absent field id `F2`. -/
def mtsFixtureParamsWrongField : MtsParams :=
  ⟨"P", "I", "F2", "Todo", false, ""⟩

/-- The outcome records `bulkAddIssues` produces on `bulkFixtureRemote` over issues
`[1, 2, 3]`: issue 2 is missing remotely, 1 and 3 succeed. -/
def bulkFixtureOutcomes : List ItemOutcome :=
  [⟨1, true, none, some "item-I1", some ⟨"I1", 1, "Issue 1", "u"⟩, some false⟩,
   ⟨2, false, some "Issue #2 não encontrada no repositório acme/widgets.", none, none, none⟩,
   ⟨3, true, none, some "item-I3", some ⟨"I3", 3, "Issue 3", "u"⟩, some false⟩]

/-- The call trace of that same run. -/
def bulkFixtureCalls : List GqlCall :=
  [.getIssueId 1, .addProjectItem "I1", .getIssueId 2, .getIssueId 3, .addProjectItem "I3"]

/-! ## Helper lemmas -/

/-- Dropping while a predicate holds of every element yields the empty list. -/
theorem dropWhile_eq_nil_of_all {p : Char → Bool} {l : List Char}
    (h : ∀ c ∈ l, p c = true) : l.dropWhile p = [] :=
  List.dropWhile_eq_nil_iff.mpr h

/-- Trimming a string made only of JS whitespace yields the empty list. -/
theorem trimJsWhiteSpace_eq_nil {l : List Char}
    (h : ∀ c ∈ l, isJsStrWhiteSpace c = true) : trimJsWhiteSpace l = [] := by
  unfold trimJsWhiteSpace
  rw [dropWhile_eq_nil_of_all h]
  rfl

/-- `Number("")` and `Number(<whitespace-only>)` are `0`, not `NaN`. -/
theorem jsToNumber_all_whitespace {s : String}
    (h : ∀ c ∈ s.data, isJsStrWhiteSpace c = true) : jsToNumber s = some (.finite 0) := by
  unfold jsToNumber
  rw [trimJsWhiteSpace_eq_nil h]
  rfl

/-- The suitability check on a present token is exactly the classic-prefix test. -/
theorem isTokenSuitable_some_eq (s : String) :
    isTokenSuitableForGraphQL (some s) = strStartsWith s "ghp_" := by
  by_cases h : s = ""
  · subst h; decide
  · unfold isTokenSuitableForGraphQL detectTokenType
    cases hg : strStartsWith s "ghp_" with
    | true => simp [h, hg]
    | false => cases hgp : strStartsWith s "github_pat_" <;> simp [h, hg, hgp]

/-- The sentinel-or-content branch of `adaptResponse` is never the empty list. -/
theorem sentinel_branch_ne_nil (c : List JSValue) :
    (if c.isEmpty then [sentinelNoData] else c) ≠ [] := by
  split
  · simp
  · rename_i h
    intro hnil
    rw [hnil] at h
    simp at h

/-! ## C3: credential suitability gate -/

/-- C3 counterexample: the token `"xyz"` carries neither the restricted prefix
`github_pat_` nor the classic prefix; it is classified `unknown`, yet the suitability
check returns `false` — contradicting the claim that the check returns `false` for
exactly the restricted-prefix credentials and `true` for every other credential. -/
theorem c3_counterexample_unknown_token_rejected :
    isTokenSuitableForGraphQL (some "xyz") = false ∧
    strStartsWith "xyz" "github_pat_" = false ∧
    detectTokenType (some "xyz") = .unknown := by
  refine ⟨by decide, by decide, by decide⟩

/-- C3 (amended): `isTokenSuitableForGraphQL` returns `true` for exactly the present
credentials bearing the classic prefix `ghp_`; restricted-prefix (`github_pat_`),
unknown-prefix, and missing credentials are all rejected (the `unknown` class is not
treated as full for gating purposes). -/
theorem c3_token_suitable_iff_classic (t : Option String) :
    isTokenSuitableForGraphQL t = true ↔ ∃ s, t = some s ∧ strStartsWith s "ghp_" = true := by
  cases t with
  | none => simp [isTokenSuitableForGraphQL]
  | some s => simp [isTokenSuitable_some_eq]

/-! ## C5: the capability gate short-circuits before any remote call -/

/-- C5: whenever the configured credential's class is not full (the suitability check is
`false`), both GraphQL operations return the structured token refusal with an empty call
trace — no GraphQL request is issued; a missing credential likewise produces an error
response without any remote call (via the thrown `Error` caught at the boundary). -/
theorem c5_gate_short_circuits_without_remote_call
    (t : String) (remoteB : BulkRemote) (pB : BulkParams)
    (remoteM : MtsRemote) (pM : MtsParams)
    (h : isTokenSuitableForGraphQL (some t) = false) :
    bulkAddIssues (some t) remoteB pB = (.refusal ⟨tokenRefusalMsg, none⟩, []) ∧
    manageTaskStatus (some t) remoteM pM = (.refusal ⟨tokenRefusalMsg, none⟩, []) ∧
    bulkAddIssues none remoteB pB =
      (.fatal "Falha ao adicionar issues em massa: Token do GitHub não configurado.", []) ∧
    manageTaskStatus none remoteM pM =
      (.fatal "Falha ao gerenciar status da tarefa: Token do GitHub não configurado.", []) := by
  refine ⟨?_, ?_, rfl, rfl⟩
  · simp [bulkAddIssues, h]
  · simp [manageTaskStatus, h]

/-- C5 witness: a fine-grained token on the concrete fixtures. -/
theorem c5_gate_short_circuits_witness :
    bulkAddIssues (some "github_pat_abc") bulkFixtureRemote bulkFixtureParams =
      (.refusal ⟨tokenRefusalMsg, none⟩, []) ∧
    manageTaskStatus (some "github_pat_abc") mtsFixtureRemote mtsFixtureParams =
      (.refusal ⟨tokenRefusalMsg, none⟩, []) ∧
    bulkAddIssues none bulkFixtureRemote bulkFixtureParams =
      (.fatal "Falha ao adicionar issues em massa: Token do GitHub não configurado.", []) ∧
    manageTaskStatus none mtsFixtureRemote mtsFixtureParams =
      (.fatal "Falha ao gerenciar status da tarefa: Token do GitHub não configurado.", []) :=
  c5_gate_short_circuits_without_remote_call "github_pat_abc" bulkFixtureRemote
    bulkFixtureParams mtsFixtureRemote mtsFixtureParams (by decide)

/-! ## C4: the error path of `adaptResponse` -/

/-- C4 counterexample: for the input `{ error: "boom" }`, `adaptResponse` returns
`{ error: "boom", details: <the input> }` — it does **not** return a single-element
error envelope (there is no `content` list at all), contradicting the claim's
"(a content list whose sole item is the error)". -/
theorem c4_counterexample_error_not_content_envelope :
    adaptResponse errFixture = .vObj [("error", .vStr "boom"), ("details", errFixture)] ∧
    contentOf (adaptResponse errFixture) = none := ⟨rfl, rfl⟩

/-- C4 (amended): for every object input carrying an `error` key, `adaptResponse`
returns the two-field object `{ error: <that error value unchanged>, details:
<the input's truthy `details`, else the whole input> }` — not a content envelope —
and normalizing that output again returns it unchanged (idempotent on error inputs). -/
theorem c4_error_passthrough_idempotent (kvs : List (String × JSValue)) (e : JSValue)
    (h : jsLookup kvs "error" = some e) :
    adaptResponse (.vObj kvs) =
      .vObj [("error", e), ("details", jsOr (jsLookup kvs "details") (.vObj kvs))] ∧
    adaptResponse (adaptResponse (.vObj kvs)) = adaptResponse (.vObj kvs) := by
  have h1 : adaptResponse (.vObj kvs) =
      .vObj [("error", e), ("details", jsOr (jsLookup kvs "details") (.vObj kvs))] := by
    simp [adaptResponse, h]
  refine ⟨h1, ?_⟩
  rw [h1]
  generalize hd : jsOr (jsLookup kvs "details") (.vObj kvs) = d
  have htr : truthy d = true := by
    rw [← hd]
    unfold jsOr
    cases hdd : jsLookup kvs "details" with
    | none => rfl
    | some x =>
      by_cases ht : truthy x = true
      · simp [ht]
      · simp only [ht, if_false, Bool.false_eq_true]
        rfl
  have l1 : jsLookup [("error", e), ("details", d)] "error" = some e := rfl
  have l2 : jsLookup [("error", e), ("details", d)] "details" = some d := rfl
  simp only [adaptResponse, l1, l2, Option.isSome_some, if_true, Option.getD_some, jsOr, htr]

/-- C4 witness: the amended statement at the concrete input `{ error: "boom" }`. -/
theorem c4_error_passthrough_witness :
    adaptResponse (.vObj [("error", .vStr "boom")]) =
      .vObj [("error", .vStr "boom"),
             ("details", jsOr (jsLookup [("error", .vStr "boom")] "details")
               (.vObj [("error", .vStr "boom")]))] ∧
    adaptResponse (adaptResponse (.vObj [("error", .vStr "boom")])) =
      adaptResponse (.vObj [("error", .vStr "boom")]) :=
  c4_error_passthrough_idempotent [("error", .vStr "boom")] (.vStr "boom") rfl

/-! ## C7: absent data normalizes to the sentinel; envelopes are never empty -/

/-- C7: `null`, `undefined` and the empty sequence each normalize to exactly the
single-element sentinel envelope, and for every non-error input the normalized
envelope's content list is non-empty. -/
theorem c7_sentinel_and_never_empty :
    adaptResponse .vNull = .vObj [("content", .vArr [sentinelNoData])] ∧
    adaptResponse .vUndefined = .vObj [("content", .vArr [sentinelNoData])] ∧
    adaptResponse (.vArr []) = .vObj [("content", .vArr [sentinelNoData])] ∧
    ∀ v, isErrorObject v = false →
      ∃ items, adaptResponse v = .vObj [("content", .vArr items)] ∧ items ≠ [] := by
  refine ⟨rfl, rfl, rfl, ?_⟩
  intro v hv
  cases v with
  | vNull => exact ⟨[sentinelNoData], rfl, by simp⟩
  | vUndefined => exact ⟨[sentinelNoData], rfl, by simp⟩
  | vBool b => exact ⟨[convertToTextItem (.vBool b)], rfl, by simp⟩
  | vNum n => exact ⟨[convertToTextItem (.vNum n)], rfl, by simp⟩
  | vStr s => exact ⟨[convertToTextItem (.vStr s)], rfl, by simp⟩
  | vArr elems =>
    exact ⟨if (elems.map convertToTextItem).isEmpty then [sentinelNoData]
      else elems.map convertToTextItem, rfl, sentinel_branch_ne_nil _⟩
  | vObj kvs =>
    simp only [isErrorObject] at hv
    refine ⟨if (adaptContent kvs).isEmpty then [sentinelNoData] else adaptContent kvs,
      ?_, sentinel_branch_ne_nil _⟩
    simp only [adaptResponse, hv, Bool.false_eq_true, if_false]

/-- C7 witness: the universally quantified part applied at the string input `"hi"`. -/
theorem c7_sentinel_witness :
    ∃ items, adaptResponse (.vStr "hi") = .vObj [("content", .vArr items)] ∧ items ≠ [] :=
  c7_sentinel_and_never_empty.2.2.2 (.vStr "hi") rfl

/-! ## C8: field-not-found errors and the list of valid identifiers -/

/-- C8 counterexample: the project's fetched field list contains the field `F1`
("Status"), the request names the absent id `F2`, and the produced field-not-found
refusal carries `availableOptions = none` and a message naming only the requested id —
no list of valid identifiers is attached, contradicting the claim. -/
theorem c8_counterexample_field_not_found_has_no_list :
    manageTaskStatus (some "ghp_t") mtsFixtureRemote mtsFixtureParamsWrongField =
      (.refusal ⟨"Campo de status com ID F2 não encontrado no projeto.", none⟩,
       [.getStatusFieldInfo]) := by
  decide

/-- C8 (amended): a field-not-found error carries only the requested field id in its
message and attaches no list of valid identifiers (`availableOptions = none` in
`manageTaskStatus`; no `availableOptions`/`availableIterations` in the `createTask`
custom-field loop).  Only option/iteration name-lookup failures attach the list. -/
theorem c8_field_not_found_message_only (token : Option String) (remote : MtsRemote)
    (p : MtsParams) (fields : List MtsStatusField)
    (hok : remote.statusFields = .ok fields)
    (hfind : fields.find? (fun f => f.id == p.statusFieldId) = none)
    (hsuit : isTokenSuitableForGraphQL token = true) :
    manageTaskStatus token remote p =
      (.refusal ⟨"Campo de status com ID " ++ p.statusFieldId ++ " não encontrado no projeto.",
        none⟩, [.getStatusFieldInfo]) ∧
    ∀ (fs : List FieldInfo) (fid v : String), fs.find? (fun f => f.id == fid) = none →
      processCustomField fs fid v =
        .error ⟨"Campo com ID " ++ fid ++ " não encontrado no projeto.", none, none⟩ := by
  constructor
  · cases token with
    | none => simp [isTokenSuitableForGraphQL] at hsuit
    | some t => simp [manageTaskStatus, hsuit, hok, hfind]
  · intro fs fid v hf
    simp [processCustomField, hf]

/-- C8 witness: the amended statement on the concrete fixtures. -/
theorem c8_field_not_found_witness :
    (manageTaskStatus (some "ghp_t") mtsFixtureRemote mtsFixtureParamsWrongField =
      (.refusal ⟨"Campo de status com ID " ++ mtsFixtureParamsWrongField.statusFieldId ++
        " não encontrado no projeto.", none⟩, [.getStatusFieldInfo])) ∧
    (∀ (fs : List FieldInfo) (fid v : String), fs.find? (fun f => f.id == fid) = none →
      processCustomField fs fid v =
        .error ⟨"Campo com ID " ++ fid ++ " não encontrado no projeto.", none, none⟩) :=
  c8_field_not_found_message_only (some "ghp_t") mtsFixtureRemote mtsFixtureParamsWrongField
    [⟨"F1", "Status", "SINGLE_SELECT", some [⟨"o1", "Todo"⟩]⟩] rfl (by decide) (by decide)

/-! ## C9: secondary-effect failures never roll back or fail the primary action -/

/-- C9: (a) in the bulk loop, when the issue lookup and the add-to-project mutation
succeed but the status-field update throws or reports no updated item, the item's
outcome still has `success = true`, no error, and only `statusUpdated = false` records
the secondary failure; (b) in `manageTaskStatus`, when the status update succeeds and
the requested comment mutation throws, the operation still returns the success response,
with the comment failure recorded in the `comment` sub-field. -/
theorem c9_secondary_failure_keeps_primary
    (remote : BulkRemote) (owner repo sfid soid : String) (n : Int) (issue : IssueInfo)
    (itemId e : String)
    (h1 : remote.issueLookup n = .ok (some issue))
    (h2 : remote.addItem issue.id = .ok (some itemId))
    (h3 : remote.updateField itemId = .error e ∨ remote.updateField itemId = .ok false)
    (tokenM : Option String) (remoteM : MtsRemote) (pM : MtsParams)
    (fieldsM : List MtsStatusField) (sfM : MtsStatusField) (optsM : List StatusOption)
    (optM : StatusOption) (c : ItemContent) (eC : String)
    (hm0 : isTokenSuitableForGraphQL tokenM = true)
    (hm1 : remoteM.statusFields = .ok fieldsM)
    (hm2 : fieldsM.find? (fun f => f.id == pM.statusFieldId) = some sfM)
    (hm3 : sfM.options = some optsM)
    (hm4 : sfM.dataType = "SINGLE_SELECT")
    (hm5 : optsM.find? (fun o => o.name == pM.newStatus) = some optM)
    (hm6 : remoteM.updateStatus = .ok true)
    (hm7 : pM.addComment = true)
    (hm8 : pM.commentBody ≠ "")
    (hm9 : remoteM.itemDetails = .ok (some c))
    (hm10 : c.typename = .issue)
    (hm11 : remoteM.addComment = .error eC) :
    ((processIssue remote owner repo (some sfid) (some soid) n).1.success = true ∧
     (processIssue remote owner repo (some sfid) (some soid) n).1.error = none ∧
     (processIssue remote owner repo (some sfid) (some soid) n).1.statusUpdated = some false) ∧
    (manageTaskStatus tokenM remoteM pM).1 =
      .updated pM.newStatus optM.id
        (some (.failedAfterUpdate
          "Falha ao adicionar comentário, mas o status foi atualizado com sucesso.")) := by
  constructor
  · rcases h3 with h3 | h3 <;> simp [processIssue, h1, h2, h3]
  · cases tokenM with
    | none => simp [isTokenSuitableForGraphQL] at hm0
    | some t =>
      have hbody : (pM.commentBody != "") = true := by
        simp [bne_iff_ne, hm8]
      simp [manageTaskStatus, hm0, hm1, hm2, hm3, hm4, hm5, hm6, hm7, hm8, hbody, hm9,
        hm10, hm11]

/-- C9 witness: issue 7 on the remote whose status update throws, and the fixture
status management whose comment mutation throws. -/
theorem c9_secondary_failure_witness :
    ((processIssue bulkFixtureRemoteUpdateThrows "acme" "widgets" (some "SF") (some "o1")
        7).1.success = true ∧
     (processIssue bulkFixtureRemoteUpdateThrows "acme" "widgets" (some "SF") (some "o1")
        7).1.error = none ∧
     (processIssue bulkFixtureRemoteUpdateThrows "acme" "widgets" (some "SF") (some "o1")
        7).1.statusUpdated = some false) ∧
    (manageTaskStatus (some "ghp_x") mtsFixtureRemote mtsFixtureParams).1 =
      .updated mtsFixtureParams.newStatus "o1"
        (some (.failedAfterUpdate
          "Falha ao adicionar comentário, mas o status foi atualizado com sucesso.")) :=
  c9_secondary_failure_keeps_primary bulkFixtureRemoteUpdateThrows "acme" "widgets" "SF" "o1"
    7 ⟨"I7", 7, "Issue 7", "u"⟩ "item-I7" "forbidden" rfl rfl (Or.inl rfl)
    (some "ghp_x") mtsFixtureRemote mtsFixtureParams
    [⟨"F1", "Status", "SINGLE_SELECT", some [⟨"o1", "Todo"⟩]⟩]
    ⟨"F1", "Status", "SINGLE_SELECT", some [⟨"o1", "Todo"⟩]⟩ [⟨"o1", "Todo"⟩] ⟨"o1", "Todo"⟩
    ⟨.issue, "C1"⟩ "comment failed"
    (by decide) rfl (by decide) rfl rfl (by decide) rfl rfl (by decide) rfl rfl rfl

/-! ## C2: the batch loop preserves input identity, order and count -/

/-- Every branch of the loop body records the item's own issue number. -/
theorem processIssue_issueNumber (remote : BulkRemote) (owner repo : String)
    (sfid soid : Option String) (n : Int) :
    (processIssue remote owner repo sfid soid n).1.issueNumber = n := by
  unfold processIssue failureOutcome
  repeat' split
  all_goals rfl

/-- The loop invariant: outcomes appear in input order (one per input), and the success
counter counts exactly the `success = true` outcomes. -/
theorem runBulkLoop_invariant (remote : BulkRemote) (owner repo : String)
    (sfid soid : Option String) (ns : List Int) :
    (runBulkLoop remote owner repo sfid soid ns).1.map (fun o => o.issueNumber) = ns ∧
    (runBulkLoop remote owner repo sfid soid ns).2.1 =
      ((runBulkLoop remote owner repo sfid soid ns).1.filter (fun o => o.success)).length := by
  induction ns with
  | nil => exact ⟨rfl, rfl⟩
  | cons n rest ih =>
    constructor
    · simp only [runBulkLoop, List.map_cons, List.cons.injEq]
      exact ⟨processIssue_issueNumber remote owner repo sfid soid n, ih.1⟩
    · simp only [runBulkLoop, List.filter_cons]
      cases hs : (processIssue remote owner repo sfid soid n).1.success with
      | true =>
        simp only [hs, if_true, ih.2, List.length_cons]
        omega
      | false => simp [hs, ih.2]

/-- Discharges the aggregate-response postcondition once the loop components are known. -/
theorem runBulkLoop_post (remote : BulkRemote) (owner repo : String)
    (sfid soid : Option String) (ns : List Int) (sc total : Nat) (os : List ItemOutcome)
    (hsc : sc = (runBulkLoop remote owner repo sfid soid ns).2.1)
    (htot : total = ns.length)
    (hos : os = (runBulkLoop remote owner repo sfid soid ns).1) :
    os.length = ns.length ∧ os.map (fun o => o.issueNumber) = ns ∧ total = ns.length ∧
    sc = (os.filter (fun o => o.success)).length := by
  subst hsc
  subst htot
  subst hos
  refine ⟨?_, (runBulkLoop_invariant remote owner repo sfid soid ns).1, rfl,
    (runBulkLoop_invariant remote owner repo sfid soid ns).2⟩
  calc (runBulkLoop remote owner repo sfid soid ns).1.length
      = ((runBulkLoop remote owner repo sfid soid ns).1.map
          (fun o => o.issueNumber)).length := by simp
    _ = ns.length := by rw [(runBulkLoop_invariant remote owner repo sfid soid ns).1]

/-- C2: whenever `bulkAddIssues` reaches the loop and returns the aggregate response,
there is exactly one outcome record per input issue number, in input order, the reported
total is the input length, and `successCount` equals the number of outcomes with
`success = true`. -/
theorem c2_bulk_outcomes_match_inputs (token : Option String) (remote : BulkRemote)
    (p : BulkParams) (sc total : Nat) (os : List ItemOutcome) (calls : List GqlCall)
    (h : bulkAddIssues token remote p = (.completed sc total os, calls)) :
    os.length = p.issueNumbers.length ∧
    os.map (fun o => o.issueNumber) = p.issueNumbers ∧
    total = p.issueNumbers.length ∧
    sc = (os.filter (fun o => o.success)).length := by
  unfold bulkAddIssues at h
  cases token with
  | none => simp at h
  | some t =>
    cases hsuit : isTokenSuitableForGraphQL (some t) with
    | false => simp [hsuit] at h
    | true =>
      cases hval : p.statusFieldId.isSome && p.statusValue.isNone with
      | true =>
        simp only [hsuit, hval] at h
        simp at h
      | false =>
        simp only [hsuit, hval, Bool.not_true, Bool.false_eq_true, if_false] at h
        split at h
        · split at h
          · simp at h
          · simp at h
          · split at h
            · simp at h
            · split at h
              · simp at h
              · simp only [Prod.mk.injEq, BulkResult.completed.injEq] at h
                exact runBulkLoop_post remote p.owner p.repo _ _ p.issueNumbers sc total os
                  h.1.1.symm h.1.2.1.symm h.1.2.2.symm
        · simp only [Prod.mk.injEq, BulkResult.completed.injEq] at h
          exact runBulkLoop_post remote p.owner p.repo none none p.issueNumbers sc total os
            h.1.1.symm h.1.2.1.symm h.1.2.2.symm

/-- C2 witness: issues `[1, 2, 3]` where issue 2 fails remotely — outcomes
`[success, failure, success]` in input order, `successCount = 2` of 3. -/
theorem c2_bulk_outcomes_witness :
    bulkFixtureOutcomes.length = bulkFixtureParams.issueNumbers.length ∧
    bulkFixtureOutcomes.map (fun o => o.issueNumber) = bulkFixtureParams.issueNumbers ∧
    (3 : Nat) = bulkFixtureParams.issueNumbers.length ∧
    (2 : Nat) = (bulkFixtureOutcomes.filter (fun o => o.success)).length :=
  c2_bulk_outcomes_match_inputs (some "ghp_x") bulkFixtureRemote bulkFixtureParams
    2 3 bulkFixtureOutcomes bulkFixtureCalls (by decide)

/-! ## C10: NUMBER fields accept empty / whitespace-only strings as 0 -/

/-- C10: for a NUMBER field, any raw value consisting only of JS whitespace (including
the empty string) resolves successfully to `{number: 0}` — `Number('')` is `0`, not
`NaN` — and a NUMBER resolution fails exactly when the JS numeric conversion of the raw
value is `NaN`. -/
theorem c10_number_whitespace_resolves_to_zero (fi : FieldInfo) (value : String)
    (hdt : fi.dataType = "NUMBER") :
    ((∀ c ∈ value.data, isJsStrWhiteSpace c = true) →
      resolveFieldValue fi value = .ok (.number (.finite 0))) ∧
    ((∃ e, resolveFieldValue fi value = .error e) ↔ jsToNumber value = none) := by
  constructor
  · intro hws
    simp [resolveFieldValue, hdt, jsToNumber_all_whitespace hws]
  · cases hjs : jsToNumber value with
    | none =>
      constructor
      · intro _
        rfl
      · intro _
        exact ⟨⟨"Valor \"" ++ value ++ "\" não é um número válido para o campo \"" ++
          fi.name ++ "\".", none, none⟩, by simp [resolveFieldValue, hdt, hjs]⟩
    | some n =>
      simp [resolveFieldValue, hdt, hjs]

/-- C10 witness: the empty string and a two-space string on the "Points" NUMBER field. -/
theorem c10_number_whitespace_witness :
    resolveFieldValue numberFixture "" = .ok (.number (.finite 0)) ∧
    resolveFieldValue numberFixture "  " = .ok (.number (.finite 0)) :=
  ⟨(c10_number_whitespace_resolves_to_zero numberFixture "" rfl).1 (by decide),
   (c10_number_whitespace_resolves_to_zero numberFixture "  " rfl).1 (by decide)⟩

/-! ## C1: SINGLE_SELECT resolution by option name -/

/-- C1: for a SINGLE_SELECT field with options, a raw value equal to some option's name
resolves to `{singleSelectOptionId: <that option's id>}` (the first such option), and a
raw value matching no option name yields an error whose attached `availableOptions`
list is exactly the field's option names. -/
theorem c1_single_select_resolution (fi : FieldInfo) (opts : List SelectOption)
    (value : String) (hdt : fi.dataType = "SINGLE_SELECT") (hopts : fi.options = some opts) :
    ((∃ o ∈ opts, o.name = value) →
      ∃ o ∈ opts, o.name = value ∧
        resolveFieldValue fi value = .ok (.singleSelectOptionId o.id)) ∧
    ((∀ o ∈ opts, o.name ≠ value) →
      ∃ err, resolveFieldValue fi value = .error err ∧
        err.availableOptions = some (opts.map (fun o => o.name))) := by
  constructor
  · rintro ⟨o, ho, hname⟩
    have hex : ∃ x ∈ opts, (fun o => o.name == value) x := ⟨o, ho, by simp [hname]⟩
    obtain ⟨o2, hfind⟩ := Option.isSome_iff_exists.mp (List.find?_isSome.mpr hex)
    have hmem := List.mem_of_find?_eq_some hfind
    have hname2 : o2.name = value := by simpa using List.find?_some hfind
    refine ⟨o2, hmem, hname2, ?_⟩
    simp [resolveFieldValue, hdt, hopts, hfind]
  · intro hnone
    have hfind : opts.find? (fun o => o.name == value) = none :=
      List.find?_eq_none.mpr (fun x hx => by simpa using hnone x hx)
    refine ⟨⟨"Opção \"" ++ value ++ "\" não encontrada para o campo de seleção \"" ++
      fi.name ++ "\".",
      some ((fi.options.map (fun os => os.map (fun o => o.name))).getD []), none⟩, ?_, ?_⟩
    · simp [resolveFieldValue, hdt, hopts, hfind]
    · simp [hopts]

/-- C1 witness: both directions on the fixture field whose sole option is "Todo". -/
theorem c1_single_select_witness :
    (∃ o ∈ [(⟨"opt1", "Todo", none⟩ : SelectOption)], o.name = "Todo" ∧
      resolveFieldValue ssFixture "Todo" = .ok (.singleSelectOptionId o.id)) ∧
    (∃ err, resolveFieldValue ssFixture "Nope" = .error err ∧
      err.availableOptions = some ["Todo"]) :=
  ⟨(c1_single_select_resolution ssFixture [⟨"opt1", "Todo", none⟩] "Todo" rfl rfl).1
    ⟨⟨"opt1", "Todo", none⟩, by simp, rfl⟩,
   (c1_single_select_resolution ssFixture [⟨"opt1", "Todo", none⟩] "Nope" rfl rfl).2
    (by decide)⟩

/-! ## C6: the DATE format contract -/

/-- A `none ⇒ false` match over an `Option` is `true` iff the option holds a value
accepted by the continuation. -/
theorem matchOption_eq_true {o : Option (List Char)} {g : List Char → Bool} :
    (match o with | none => false | some r => g r) = true ↔
      ∃ r, o = some r ∧ g r = true := by
  cases o <;> simp

/-- `takeDigits n` succeeds exactly on inputs that start with `n` digits, returning the
rest. -/
theorem takeDigits_eq_some {n : Nat} {cs r : List Char} :
    takeDigits n cs = some r ↔ ∃ ds, cs = ds ++ r ∧ ds.length = n ∧ AllDigits ds := by
  induction n generalizing cs with
  | zero =>
    simp only [takeDigits, Option.some.injEq]
    constructor
    · rintro rfl
      exact ⟨[], rfl, rfl, fun c hc => absurd hc (List.not_mem_nil c)⟩
    · rintro ⟨ds, hcs, hlen, _⟩
      rw [List.length_eq_zero] at hlen
      subst hlen
      simpa using hcs
  | succ n ih =>
    cases cs with
    | nil =>
      simp only [takeDigits]
      constructor
      · intro h
        exact absurd h (by simp)
      · rintro ⟨ds, hcs, hlen, _⟩
        cases ds with
        | nil => simp at hlen
        | cons d ds2 => simp at hcs
    | cons c cs2 =>
      simp only [takeDigits]
      by_cases hc : c.isDigit
      · rw [if_pos hc, ih]
        constructor
        · rintro ⟨ds, hcs, hlen, hdig⟩
          refine ⟨c :: ds, by simp [hcs], by simp [hlen], ?_⟩
          intro x hx
          rcases List.mem_cons.mp hx with rfl | hx2
          · exact hc
          · exact hdig x hx2
        · rintro ⟨ds, hcs, hlen, hdig⟩
          cases ds with
          | nil => simp at hlen
          | cons d ds2 =>
            obtain ⟨hd, hcs2⟩ : c = d ∧ cs2 = ds2 ++ r := by simpa using hcs
            refine ⟨ds2, hcs2, by simpa using hlen, ?_⟩
            intro x hx
            exact hdig x (List.mem_cons_of_mem d hx)
      · rw [if_neg hc]
        constructor
        · intro h
          exact absurd h (by simp)
        · rintro ⟨ds, hcs, hlen, hdig⟩
          cases ds with
          | nil => simp at hlen
          | cons d ds2 =>
            obtain ⟨hd, -⟩ : c = d ∧ cs2 = ds2 ++ r := by simpa using hcs
            exact absurd (by rw [hd]; exact hdig d (by simp)) hc

/-- `expectChar c` succeeds exactly when the input starts with `c`. -/
theorem expectChar_eq_some {c : Char} {cs r : List Char} :
    expectChar c cs = some r ↔ cs = c :: r := by
  cases cs with
  | nil => simp [expectChar]
  | cons c2 cs2 =>
    simp only [expectChar]
    by_cases h : c2 = c
    · subst h
      simp
    · rw [if_neg h]
      simp [h]

/-- The fractional-seconds tail matcher agrees with its specification reading. -/
theorem matchFracZ_iff {cs : List Char} :
    matchFracZ cs = true ↔
      (cs = ['Z'] ∨ ∃ f, cs = '.' :: (f ++ ['Z']) ∧ f.length = 3 ∧ AllDigits f) := by
  cases cs with
  | nil =>
    simp [matchFracZ]
  | cons c cs2 =>
    simp only [matchFracZ]
    by_cases hz : c = 'Z'
    · subst hz
      rw [if_pos rfl]
      constructor
      · intro h
        left
        simp [List.isEmpty_iff.mp h]
      · rintro (h | ⟨f, hf, _, _⟩)
        · obtain ⟨-, h2⟩ : 'Z' = 'Z' ∧ cs2 = [] := by simpa using h
          simp [h2]
        · exact absurd hf (by simp)
    · rw [if_neg hz]
      by_cases hdot : c = '.'
      · subst hdot
        rw [if_pos rfl, matchOption_eq_true]
        constructor
        · rintro ⟨rest, htd, hrz⟩
          obtain ⟨f, hcs2, hlen, hdig⟩ := takeDigits_eq_some.mp htd
          have hrz2 : rest = ['Z'] := by simpa using hrz
          right
          refine ⟨f, ?_, hlen, hdig⟩
          rw [hcs2, hrz2]
        · rintro (h | ⟨f, hf, hlen, hdig⟩)
          · exact absurd h (by simp)
          · obtain ⟨-, hcs2⟩ : '.' = '.' ∧ cs2 = f ++ ['Z'] := by simpa using hf
            exact ⟨['Z'], takeDigits_eq_some.mpr ⟨f, hcs2, hlen, hdig⟩, by simp⟩
      · rw [if_neg hdot]
        constructor
        · intro h
          exact absurd h (by simp)
        · rintro (h | ⟨f, hf, _, _⟩)
          · obtain ⟨habs, -⟩ : c = 'Z' ∧ cs2 = [] := by simpa using h
            exact absurd habs hz
          · obtain ⟨habs, -⟩ : c = '.' ∧ cs2 = f ++ ['Z'] := by simpa using hf
            exact absurd habs hdot

/-- The time-suffix matcher agrees with its specification reading. -/
theorem matchTimeSuffix_iff {cs : List Char} :
    matchTimeSuffix cs = true ↔ TimeSuffixSpec cs := by
  cases cs with
  | nil =>
    simp only [matchTimeSuffix]
    constructor
    · intro _
      exact Or.inl rfl
    · intro _
      trivial
  | cons c cs2 =>
    simp only [matchTimeSuffix]
    by_cases hT : c = 'T'
    · subst hT
      rw [if_pos rfl, matchOption_eq_true]
      constructor
      · rintro ⟨rest, hch, hfz⟩
        rcases Option.bind_eq_some.mp hch with ⟨r4, hch4, hr5⟩
        rcases Option.bind_eq_some.mp hch4 with ⟨r3, hch3, hr4⟩
        rcases Option.bind_eq_some.mp hch3 with ⟨r2, hch2, hr3⟩
        rcases Option.bind_eq_some.mp hch2 with ⟨r1, hch1, hr2⟩
        obtain ⟨hh, hcs2, hlenh, hdigh⟩ := takeDigits_eq_some.mp hch1
        obtain hr2' := expectChar_eq_some.mp hr2
        obtain ⟨mi, hr2'', hlenmi, hdigmi⟩ := takeDigits_eq_some.mp hr3
        obtain hr4' := expectChar_eq_some.mp hr4
        obtain ⟨se, hr4'', hlense, hdigse⟩ := takeDigits_eq_some.mp hr5
        rcases matchFracZ_iff.mp hfz with hrest | ⟨f, hrest, hlenf, hdigf⟩
        · right
          refine ⟨hh, mi, se, [], ?_, hlenh, hdigh, hlenmi, hdigmi, hlense, hdigse,
            Or.inl rfl⟩
          simp [hcs2, hr2', hr2'', hr4', hr4'', hrest, List.append_assoc]
        · right
          refine ⟨hh, mi, se, '.' :: f, ?_, hlenh, hdigh, hlenmi, hdigmi, hlense, hdigse,
            Or.inr ⟨f, rfl, hlenf, hdigf⟩⟩
          simp [hcs2, hr2', hr2'', hr4', hr4'', hrest, List.append_assoc]
      · intro hspec
        rcases hspec with habs | ⟨hh, mi, se, fr, heq, hlenh, hdigh, hlenmi, hdigmi,
          hlense, hdigse, hfr⟩
        · exact absurd habs (by simp)
        · obtain hcs2 : cs2 = hh ++ ':' :: (mi ++ ':' :: (se ++ (fr ++ ['Z']))) := by
            simpa using heq
          subst hcs2
          have s1 : takeDigits 2 (hh ++ ':' :: (mi ++ ':' :: (se ++ (fr ++ ['Z'])))) =
              some (':' :: (mi ++ ':' :: (se ++ (fr ++ ['Z'])))) :=
            takeDigits_eq_some.mpr ⟨hh, rfl, hlenh, hdigh⟩
          have s2 : takeDigits 2 (mi ++ ':' :: (se ++ (fr ++ ['Z']))) =
              some (':' :: (se ++ (fr ++ ['Z']))) :=
            takeDigits_eq_some.mpr ⟨mi, rfl, hlenmi, hdigmi⟩
          have s3 : takeDigits 2 (se ++ (fr ++ ['Z'])) = some (fr ++ ['Z']) :=
            takeDigits_eq_some.mpr ⟨se, rfl, hlense, hdigse⟩
          refine ⟨fr ++ ['Z'], ?_, ?_⟩
          · rw [s1]
            simp only [Option.some_bind]
            rw [expectChar_eq_some.mpr rfl, Option.some_bind, s2, Option.some_bind,
              expectChar_eq_some.mpr rfl, Option.some_bind, s3]
          · rcases hfr with rfl | ⟨f, rfl, hlenf, hdigf⟩
            · exact matchFracZ_iff.mpr (Or.inl (by simp))
            · exact matchFracZ_iff.mpr (Or.inr ⟨f, by simp, hlenf, hdigf⟩)
    · rw [if_neg hT]
      constructor
      · intro h
        exact absurd h (by simp)
      · intro hspec
        rcases hspec with habs | ⟨hh, mi, se, fr, heq, -⟩
        · exact absurd habs (by simp)
        · obtain ⟨habs, -⟩ : c = 'T' ∧ cs2 = hh ++ ':' :: (mi ++ ':' :: (se ++ (fr ++ ['Z']))) := by
            simpa using heq
          exact absurd habs hT

/-- The whole regex matcher accepts exactly the strings of `DateFormatSpec`. -/
theorem isValidDateFormat_iff {s : String} :
    isValidDateFormat s = true ↔ DateFormatSpec s := by
  unfold isValidDateFormat
  rw [matchOption_eq_true]
  constructor
  · rintro ⟨rest, hch, hts⟩
    rcases Option.bind_eq_some.mp hch with ⟨r4, hch4, hr5⟩
    rcases Option.bind_eq_some.mp hch4 with ⟨r3, hch3, hr4⟩
    rcases Option.bind_eq_some.mp hch3 with ⟨r2, hch2, hr3⟩
    rcases Option.bind_eq_some.mp hch2 with ⟨r1, hch1, hr2⟩
    obtain ⟨y, hdata, hleny, hdigy⟩ := takeDigits_eq_some.mp hch1
    obtain hr2' := expectChar_eq_some.mp hr2
    obtain ⟨mo, hr2'', hlenmo, hdigmo⟩ := takeDigits_eq_some.mp hr3
    obtain hr4' := expectChar_eq_some.mp hr4
    obtain ⟨d, hr4'', hlend, hdigd⟩ := takeDigits_eq_some.mp hr5
    refine ⟨y, mo, d, rest, ?_, hleny, hdigy, hlenmo, hdigmo, hlend, hdigd,
      matchTimeSuffix_iff.mp hts⟩
    rw [hdata, hr2', hr2'', hr4', hr4'']
  · rintro ⟨y, mo, d, rest, heq, hleny, hdigy, hlenmo, hdigmo, hlend, hdigd, hts⟩
    have s1 : takeDigits 4 s.data = some ('-' :: (mo ++ '-' :: (d ++ rest))) := by
      rw [heq]
      exact takeDigits_eq_some.mpr ⟨y, rfl, hleny, hdigy⟩
    have s2 : takeDigits 2 (mo ++ '-' :: (d ++ rest)) = some ('-' :: (d ++ rest)) :=
      takeDigits_eq_some.mpr ⟨mo, rfl, hlenmo, hdigmo⟩
    have s3 : takeDigits 2 (d ++ rest) = some rest :=
      takeDigits_eq_some.mpr ⟨d, rfl, hlend, hdigd⟩
    refine ⟨rest, ?_, matchTimeSuffix_iff.mpr hts⟩
    rw [s1, Option.some_bind, expectChar_eq_some.mpr rfl, Option.some_bind, s2,
      Option.some_bind, expectChar_eq_some.mpr rfl, Option.some_bind, s3]

/-- C6: for a DATE field, resolution succeeds with `{date: rawValue}` unchanged exactly
when the raw value matches `YYYY-MM-DD` or the full timestamp
`YYYY-MM-DDThh:mm:ss(.sss)?Z`; every other string is rejected with a format-invalid
error whose message embeds the expected format. -/
theorem c6_date_resolution_format_contract (fi : FieldInfo) (value : String)
    (hdt : fi.dataType = "DATE") :
    ((resolveFieldValue fi value = .ok (.date value)) ↔ DateFormatSpec value) ∧
    (¬ DateFormatSpec value →
      ∃ err, resolveFieldValue fi value = .error err ∧
        err.availableOptions = none ∧
        ∃ pre, err.message = pre ++ "(YYYY-MM-DD).") := by
  constructor
  · rw [← isValidDateFormat_iff]
    cases hv : isValidDateFormat value with
    | true => simp [resolveFieldValue, hdt, hv]
    | false =>
      simp only [resolveFieldValue, hdt, hv]
      constructor
      · intro h
        exact absurd h (by simp)
      · intro h
        exact absurd h (by simp)
  · intro hns
    have hv : isValidDateFormat value = false := by
      cases hv : isValidDateFormat value with
      | true => exact absurd (isValidDateFormat_iff.mp hv) hns
      | false => rfl
    refine ⟨⟨"Valor \"" ++ value ++
      "\" não é uma data válida. Use o formato ISO 8601 (YYYY-MM-DD).", none, none⟩,
      by simp [resolveFieldValue, hdt, hv], rfl,
      "Valor \"" ++ value ++ "\" não é uma data válida. Use o formato ISO 8601 ", ?_⟩
    simp only [String.append_assoc]
    rfl

/-- C6 witness: `"2024-01-15"` satisfies the format specification (obtained from the
successful resolution), and `"15/01/2024"` is rejected with the format embedded in the
message. -/
theorem c6_date_format_witness :
    DateFormatSpec "2024-01-15" ∧
    (∃ err, resolveFieldValue dateFixture "15/01/2024" = .error err ∧
      err.availableOptions = none ∧
      ∃ pre, err.message = pre ++ "(YYYY-MM-DD).") := by
  constructor
  · exact (c6_date_resolution_format_contract dateFixture "2024-01-15" rfl).1.mp rfl
  · refine (c6_date_resolution_format_contract dateFixture "15/01/2024" rfl).2 ?_
    intro hspec
    have h := (c6_date_resolution_format_contract dateFixture "15/01/2024" rfl).1.mpr hspec
    have hev : resolveFieldValue dateFixture "15/01/2024" =
        .error ⟨"Valor \"15/01/2024\" não é uma data válida. Use o formato ISO 8601 (YYYY-MM-DD).",
          none, none⟩ := rfl
    rw [hev] at h
    exact Except.noConfusion h

/-- C3 witness: the amended gate statement at a concrete classic token. -/
theorem c3_token_suitable_witness :
    isTokenSuitableForGraphQL (some "ghp_token123") = true :=
  (c3_token_suitable_iff_classic (some "ghp_token123")).mpr ⟨"ghp_token123", rfl, by decide⟩
